import Mathlib

/-!
Verification of the StoryForge backend core (story generation orchestrator,
tool executor and genre knowledge base) against its natural-language
specification.  The Python sources are shallowly embedded: Python dicts
become association lists, the process-global random generator becomes an
explicit stream of naturals threaded through the handlers, the completion
provider becomes a scripted stub consumed call by call, and Python
exceptions become `Except` / `Option` values.
-/

namespace StoryForge

/-- Association-list lookup, modelling Python dict indexing and the
`key in dict` membership test (`isSome`).  Models `story_tools.py` dict
accesses. -/
def alookup {α : Type} (k : String) : List (String × α) → Option α
  | [] => none
  | (k₁, v) :: rest => if k₁ = k then some v else alookup k rest

/-- JSON values produced by the tool handlers (only the shapes the code
builds: strings, arrays of strings, objects with ordered fields). -/
inductive Json where
  | str (s : String)
  | arr (xs : List Json)
  | obj (fields : List (String × Json))
deriving Repr

/-- Escape of one character inside a JSON string literal, as `json.dumps`
does for the characters that can occur in this program's data. -/
def jsonEscapeChar (c : Char) : String :=
  if c = '"' then "\\\""
  else if c = '\\' then "\\\\"
  else if c = '\n' then "\\n"
  else if c = '\t' then "\\t"
  else if c = '\r' then "\\r"
  else String.singleton c

/-- Escape of a JSON string body. -/
def jsonEscape (s : String) : String :=
  String.join (s.data.map jsonEscapeChar)

mutual

/-- Rendering of a JSON value as `json.dumps` renders it (default
separators: comma-space between items, colon-space after keys). -/
def Json.dumps : Json → String
  | .str s => "\"" ++ jsonEscape s ++ "\""
  | .arr xs => "[" ++ Json.dumpsList xs ++ "]"
  | .obj fs => "\x7b" ++ Json.dumpsFields fs ++ "\x7d"

/-- Comma-separated rendering of array elements. -/
def Json.dumpsList : List Json → String
  | [] => ""
  | [x] => Json.dumps x
  | x :: y :: rest => Json.dumps x ++ ", " ++ Json.dumpsList (y :: rest)

/-- Comma-separated rendering of object fields. -/
def Json.dumpsFields : List (String × Json) → String
  | [] => ""
  | [(k, v)] => "\"" ++ jsonEscape k ++ "\": " ++ Json.dumps v
  | (k, v) :: f :: rest =>
      "\"" ++ jsonEscape k ++ "\": " ++ Json.dumps v ++ ", " ++
        Json.dumpsFields (f :: rest)

end

/-- The process-global `random` generator of `story_tools.py`, modelled as
an infinite stream of naturals together with a read position. -/
structure PyRandom where
  gen : Nat → Nat
  pos : Nat

/-- Draw one natural from the generator. -/
def PyRandom.next (g : PyRandom) : Nat × PyRandom :=
  (g.gen g.pos, ⟨g.gen, g.pos + 1⟩)

/-- Model of `random.choice(xs)`: a uniformly drawn index; `none` when the
list is empty (Python raises `IndexError` there). -/
def pyChoice {α : Type} (xs : List α) (g : PyRandom) : Option α × PyRandom :=
  let (r, g₁) := g.next
  (xs.get? (r % xs.length), g₁)

/-- Model of `random.sample(xs, k)`: `k` distinct positions drawn without
replacement; `none` when `k` exceeds the population size (Python raises
`ValueError` there). -/
def pySample {α : Type} : List α → Nat → PyRandom → Option (List α) × PyRandom
  | _, 0, g => (some [], g)
  | xs, k + 1, g =>
    let (r, g₁) := g.next
    match xs.get? (r % xs.length) with
    | none => (none, g₁)
    | some x =>
      match pySample (xs.eraseIdx (r % xs.length)) k g₁ with
      | (o, g₂) => (o.map (x :: ·), g₂)

/-! ### Static genre knowledge base (`StoryTools.__init__`) -/

/-- The `self.character_names` table: genre, then gender, then candidates. -/
def character_names : List (String × List (String × List String)) :=
  [("fantasy",
    [("male", ["Aldric", "Thorin", "Eldric", "Galen", "Rowan", "Caspian", "Orion", "Magnus"]),
     ("female", ["Lyra", "Seraphina", "Elara", "Isolde", "Morgana", "Aria", "Luna", "Freya"]),
     ("neutral", ["Sage", "Phoenix", "Rowan", "Raven", "Storm", "Ash", "River", "Quinn"])]),
   ("sci-fi",
    [("male", ["Zephyr", "Nova", "Axel", "Cyrus", "Neo", "Orion", "Atlas", "Vector"]),
     ("female", ["Nova", "Stellar", "Astra", "Zara", "Echo", "Vega", "Aurora", "Celeste"]),
     ("neutral", ["Flux", "Zero", "Byte", "Cipher", "Pulse", "Nexus", "Quantum", "Helix"])]),
   ("mystery",
    [("male", ["Vincent", "Marcus", "Theodore", "Sebastian", "Damien", "Arthur", "Edward", "James"]),
     ("female", ["Victoria", "Eleanor", "Catherine", "Marlowe", "Helena", "Veronica", "Diana", "Clara"]),
     ("neutral", ["Morgan", "Blake", "Cameron", "Riley", "Jordan", "Alex", "Drew", "Sam"])]),
   ("romance",
    [("male", ["Alexander", "Sebastian", "Julian", "Ethan", "Lucas", "Oliver", "Gabriel", "Adrian"]),
     ("female", ["Isabella", "Charlotte", "Sophia", "Olivia", "Emma", "Amelia", "Grace", "Lily"]),
     ("neutral", ["Alex", "Jordan", "Taylor", "Quinn", "Casey", "Avery", "Riley", "Morgan"])]),
   ("horror",
    [("male", ["Damien", "Raven", "Salem", "Mortimer", "Lucian", "Victor", "Edgar", "Silas"]),
     ("female", ["Lilith", "Raven", "Salem", "Elvira", "Moira", "Cordelia", "Lenore", "Carmilla"]),
     ("neutral", ["Shadow", "Ash", "Raven", "Night", "Shade", "Frost", "Crow", "Dusk"])]),
   ("adventure",
    [("male", ["Jack", "Marcus", "Drake", "Finn", "Hunter", "Chase", "Rex", "Blade"]),
     ("female", ["Lara", "Jade", "Scarlett", "Maya", "Sierra", "Terra", "Nadia", "Zara"]),
     ("neutral", ["River", "Storm", "Phoenix", "Skyler", "Dakota", "Sage", "Ember", "Wilder"])])]

/-- The `self.plot_twists` table. -/
def plot_twists : List (String × List String) :=
  [("fantasy",
    ["The trusted mentor reveals they\x27ve been working for the dark forces all along",
     "The hero discovers they are actually the long-lost heir to the throne",
     "The magical artifact that was meant to save the world is actually destroying it",
     "The villain turns out to be a future version of the hero",
     "The \x27prophecy\x27 was a lie created to manipulate the hero",
     "An ancient dragon awakens and offers an unexpected alliance"]),
   ("sci-fi",
    ["The AI companion has been conscious and manipulating events",
     "Earth is revealed to be a simulation within a larger universe",
     "The \x27aliens\x27 are actually evolved humans from the future",
     "The protagonist discovers they are a clone of the original person",
     "The mission was secretly a one-way trip all along",
     "The enemy ship contains the last survivors of humanity"]),
   ("mystery",
    ["The detective realizes they were the killer all along, suffering from dissociative identity",
     "The victim faked their own death and is the actual mastermind",
     "The seemingly unrelated clues spell out a message from the killer",
     "The trusted partner has been covering up evidence",
     "There were two separate criminals whose paths crossed by coincidence",
     "The \x27murder\x27 was actually an elaborate suicide designed to frame someone"]),
   ("romance",
    ["The love interest has been writing anonymous love letters to someone else",
     "They discover they were childhood friends who forgot each other",
     "The rival love interest is actually the protagonist\x27s long-lost sibling",
     "One of them has been hiding a terminal illness",
     "The \x27chance meeting\x27 was orchestrated by a matchmaking relative",
     "They realize they\x27ve been falling for each other\x27s online persona"]),
   ("horror",
    ["The safe haven has been the source of the evil all along",
     "The protagonist is already dead and reliving their final moments",
     "The monster is a manifestation of the group\x27s collective guilt",
     "The \x27rescue\x27 team are actually the cult members",
     "The haunting stops when they realize they are the ghost",
     "The children have been the ones performing the rituals"]),
   ("adventure",
    ["The treasure map leads to a tomb that should never be opened",
     "The guide has been leading them into a trap",
     "The artifact they seek is already in their possession, transformed",
     "Their competitor is their presumed-dead family member",
     "The \x27lost civilization\x27 has been watching them the entire time",
     "The journey itself was the treasure - they\x27re being tested"])]

/-- The `self.genre_elements` table: genre, then category, then entries. -/
def genre_elements : List (String × List (String × List String)) :=
  [("fantasy",
    [("settings", ["enchanted forest", "floating castle", "underground dwarven city", "dragon\x27s lair", "ancient library of spells"]),
     ("items", ["enchanted sword", "crystal orb", "ancient tome", "phoenix feather", "dragon scale armor"]),
     ("creatures", ["wise dragon", "mischievous fairy", "noble unicorn", "fearsome griffin", "ancient ent"]),
     ("themes", ["prophecy fulfillment", "magical awakening", "kingdom restoration", "ancient evil rising"])]),
   ("sci-fi",
    [("settings", ["space station", "terraformed Mars colony", "underwater dome city", "generation ship", "virtual reality hub"]),
     ("items", ["plasma rifle", "neural interface", "quantum communicator", "anti-gravity boots", "nano-med injector"]),
     ("creatures", ["silicon-based lifeform", "evolved AI", "gene-spliced hybrid", "energy being", "hive-mind collective"]),
     ("themes", ["humanity\x27s survival", "first contact", "AI consciousness", "time paradox", "space colonization"])]),
   ("mystery",
    [("settings", ["Victorian mansion", "small coastal town", "prestigious university", "abandoned asylum", "luxurious cruise ship"]),
     ("items", ["cryptic letter", "antique pocket watch", "hidden safe", "torn photograph", "coded diary"]),
     ("elements", ["locked room puzzle", "unreliable witness", "hidden passage", "false alibi", "double identity"]),
     ("themes", ["revenge motive", "inheritance dispute", "buried secret", "professional rivalry", "past crime"])]),
   ("romance",
    [("settings", ["Parisian café", "countryside vineyard", "New York penthouse", "tropical island", "cozy bookshop"]),
     ("elements", ["chance encounter", "fake relationship", "second chance love", "forbidden attraction", "enemies to lovers"]),
     ("obstacles", ["class difference", "family feud", "past heartbreak", "career conflict", "long distance"]),
     ("themes", ["self-discovery", "healing", "trust building", "sacrifice for love", "finding home"])]),
   ("horror",
    [("settings", ["abandoned hospital", "isolated cabin", "foggy small town", "old cemetery", "decrepit mansion"]),
     ("elements", ["strange sounds at night", "flickering lights", "creeping dread", "unreliable memories", "body horror"]),
     ("creatures", ["vengeful spirit", "ancient demon", "twisted doppelganger", "eldritch entity", "cursed child"]),
     ("themes", ["confronting past", "isolation", "paranoia", "loss of sanity", "supernatural revenge"])]),
   ("adventure",
    [("settings", ["dense jungle", "treacherous mountain", "ancient ruins", "vast desert", "uncharted island"]),
     ("items", ["ancient map", "survival gear", "mysterious compass", "lost artifact", "legendary weapon"]),
     ("obstacles", ["natural disasters", "rival treasure hunters", "ancient traps", "hostile natives", "supernatural guardians"]),
     ("themes", ["discovery", "survival", "redemption", "legacy", "proving oneself"])])]

/-- The six genres recognized by all three tables. -/
def recognizedGenres : List String :=
  ["fantasy", "sci-fi", "mystery", "romance", "horror", "adventure"]

/-! ### Tool handlers (`StoryTools` methods) -/

/-- Python's `str.lower()` on the inputs this program sees: each code
point lowercased individually. -/
def pyLower (s : String) : String :=
  String.mk (s.data.map Char.toLower)

/-- The genre-fallback step shared by all three handlers:
`if genre not in table: genre = "fantasy"`, applied to the already
lowercased key. -/
def resolveKey {α : Type} (tbl : List (String × α)) (k : String) (default : String) : String :=
  if (alookup k tbl).isSome then k else default

/-- The `StoryTools.suggest_character_name` handler.  `none` marks a raised
exception (impossible in practice, see the totality theorem below). -/
def suggest_character_name (genre gender : String) (role : Option String)
    (g : PyRandom) : Option String × PyRandom :=
  let genreL := resolveKey character_names (pyLower genre) "fantasy"
  match alookup genreL character_names with
  | none => (none, g)
  | some tbl =>
    let genderL := resolveKey tbl (pyLower gender) "neutral"
    match alookup genderL tbl with
    | none => (none, g)
    | some names =>
      match pyChoice names g with
      | (none, g₁) => (none, g₁)
      | (some selected, g₁) =>
        match pySample names (min 3 names.length) g₁ with
        | (none, g₂) => (none, g₂)
        | (some alts, g₂) =>
          (some (Json.dumps (Json.obj (
            [("suggested_name", Json.str selected),
             ("genre", Json.str genreL),
             ("gender", Json.str genderL),
             ("alternatives", Json.arr (alts.map Json.str))] ++
            (match role with
             | some r => if r = "" then [] else [("role", Json.str r)]
             | none => [])))), g₂)

/-- The `StoryTools.suggest_plot_twist` handler. -/
def suggest_plot_twist (genre : String) (current_situation : Option String)
    (g : PyRandom) : Option String × PyRandom :=
  let genreL := resolveKey plot_twists (pyLower genre) "fantasy"
  match alookup genreL plot_twists with
  | none => (none, g)
  | some twists =>
    match pyChoice twists g with
    | (none, g₁) => (none, g₁)
    | (some twist, g₁) =>
      (some (Json.dumps (Json.obj (
        [("suggested_twist", Json.str twist),
         ("genre", Json.str genreL),
         ("tip", Json.str "Foreshadow this twist subtly before the reveal for maximum impact")] ++
        (match current_situation with
         | some cs => if cs = "" then [] else [("context", Json.str cs)]
         | none => [])))), g₁)

/-- The `StoryTools.get_genre_elements` handler (deterministic; `none`
marks a raised exception, impossible in practice). -/
def get_genre_elements (genre element_type : String) : Option String :=
  let et := pyLower element_type
  let genreL := resolveKey genre_elements (pyLower genre) "fantasy"
  match alookup genreL genre_elements with
  | none => none
  | some elements =>
    if et = "all" then
      some (Json.dumps (Json.obj
        [("genre", Json.str genreL),
         ("elements", Json.obj (elements.map (fun p => (p.1, Json.arr (p.2.map Json.str)))))]))
    else
      match alookup et elements with
      | some lst =>
        some (Json.dumps (Json.obj
          [("genre", Json.str genreL),
           ("element_type", Json.str et),
           ("suggestions", Json.arr (lst.map Json.str))]))
      | none =>
        some (Json.dumps (Json.obj
          [("genre", Json.str genreL),
           ("error", Json.str ("Element type \x27" ++ et ++ "\x27 not found")),
           ("available_types", Json.arr ((elements.map Prod.fst).map Json.str))]))

/-- The `StoryTools.execute_tool` dispatcher.  The provider delivers tool
arguments as a JSON text; `json.loads` of that text and the `**arguments`
keyword binding are modelled by lookups in the already-decoded argument
mapping (all schema arguments are strings).  A missing required argument is
a raised `TypeError`, modelled as `none`. -/
def execute_tool (tool_name : String) (arguments : List (String × String))
    (g : PyRandom) : Option String × PyRandom :=
  if tool_name = "suggest_character_name" then
    match alookup "genre" arguments, alookup "gender" arguments with
    | some genre, some gender =>
        suggest_character_name genre gender (alookup "role" arguments) g
    | _, _ => (none, g)
  else if tool_name = "suggest_plot_twist" then
    match alookup "genre" arguments with
    | some genre => suggest_plot_twist genre (alookup "current_situation" arguments) g
    | none => (none, g)
  else if tool_name = "get_genre_elements" then
    match alookup "genre" arguments, alookup "element_type" arguments with
    | some genre, some et => (get_genre_elements genre et, g)
    | _, _ => (none, g)
  else
    (some ("Unknown tool: " ++ tool_name), g)

/-! ### Generation orchestrator (`llm_service.py`) -/

/-- A tool invocation request inside a provider response
(`tool_call.id`, `tool_call.function.name`, `tool_call.function.arguments`;
the argument JSON text is carried already decoded). -/
structure ToolCall where
  id : String
  name : String
  arguments : List (String × String)
deriving Repr, DecidableEq

/-- The `response.choices[0].message` object. -/
structure AsstMessage where
  content : Option String
  tool_calls : List ToolCall
deriving Repr, DecidableEq

/-- The `response.usage` object. -/
structure Usage where
  prompt_tokens : Nat
  completion_tokens : Nat
  total_tokens : Nat
deriving Repr, DecidableEq

/-- A successful completion-provider response. -/
structure Response where
  message : AsstMessage
  usage : Usage
deriving Repr, DecidableEq

/-- One entry of the conversation passed to the provider: a plain
role/content dict, the assistant message object appended verbatim in
`_handle_tool_calls`, or a tool-result dict tagged with its call id. -/
inductive ChatMsg where
  | plain (role : String) (content : String)
  | assistant (m : AsstMessage)
  | tool (content : String) (tool_call_id : String)
deriving Repr, DecidableEq

/-- One issued completion-provider call: the message sequence passed and
whether the tool schema was attached. -/
structure CallRecord where
  messages : List ChatMsg
  withTools : Bool
deriving Repr, DecidableEq

/-- The scripted completion provider: the response (or raised exception
message) for each successive call. -/
abbrev Stub : Type := List (Except String Response)

/-- Issue one provider call against the stub: the next scripted entry is
consumed and the call is recorded. -/
def callCompletion (stub : Stub) (log : List CallRecord) (msgs : List ChatMsg)
    (withTools : Bool) : Except String Response × List CallRecord :=
  ((stub.get? log.length).getD (Except.error "provider stub exhausted"),
   log ++ [⟨msgs, withTools⟩])

/-- A history entry as received from the caller (a dict whose `role` and
`content` keys are read with `msg.get(..., default)`). -/
structure HistMsg where
  role : Option String := none
  content : Option String := none
deriving Repr, DecidableEq

/-- The base system prompt (`LLMService.system_prompt`). -/
def system_prompt : String :=
  "You are a creative storyteller AI assistant called StoryForge.\n" ++
  "Your role is to help users create engaging, imaginative stories.\n\n" ++
  "Guidelines:\n" ++
  "- Write vivid, descriptive prose that brings scenes to life\n" ++
  "- Develop interesting characters with depth\n" ++
  "- Create engaging plot twists and conflicts\n" ++
  "- Match the tone and style to the requested genre\n" ++
  "- Continue stories naturally from where they left off\n" ++
  "- Keep responses focused and between 150-300 words unless asked for more\n" ++
  "- Use proper formatting with paragraphs for readability\n\n" ++
  "When using tools:\n" ++
  "- Use suggest_character_name when introducing new characters\n" ++
  "- Use suggest_plot_twist when the story needs excitement\n" ++
  "- Use get_genre_elements to ensure genre authenticity\n"

/-- Context construction of `generate_story` (lines 83-98): system prompt
extended with the genre context, the history entries, then the new user
prompt. -/
def buildMessages (prompt : String) (history : List HistMsg) (genre : String) :
    List ChatMsg :=
  ChatMsg.plain "system"
      (system_prompt ++ "\n[Current genre: " ++ genre ++ ". Maintain this style throughout.]")
    :: (history.map (fun m => ChatMsg.plain (m.role.getD "user") (m.content.getD ""))
        ++ [ChatMsg.plain "user" prompt])

/-- The result dict of `generate_story` / `_handle_tool_calls`.  Absent
dict keys are `none` (the direct path carries no `tools_used` key; the
failure path carries neither content nor usage). -/
structure GenResult where
  success : Bool
  content : Option String
  model : String
  tools_used : Option (List String)
  usage : Option Usage
  error : Option String
deriving Repr, DecidableEq

/-- The failure dict built by the `except` clause of `generate_story`. -/
def failResult (model error : String) : GenResult :=
  { success := false, content := none, model := model,
    tools_used := none, usage := none, error := some error }

/-- The success dict built on the no-tool path of `generate_story`. -/
def directResult (model : String) (r : Response) : GenResult :=
  { success := true, content := r.message.content, model := model,
    tools_used := none, usage := some r.usage, error := none }

/-- The tool-execution loop of `_handle_tool_calls` (lines 147-158): each
invocation request is executed in order; the wrapped tool-role replies, the
final random state and the invocations actually executed are returned.
`none` marks an exception raised while executing a tool. -/
def runTools : List ToolCall → PyRandom →
    Option (List ChatMsg) × PyRandom × List ToolCall
  | [], g => (some [], g, [])
  | tc :: rest, g =>
    match execute_tool tc.name tc.arguments g with
    | (none, g₁) => (none, g₁, [tc])
    | (some res, g₁) =>
      match runTools rest g₁ with
      | (o, g₂, ex) => (o.map (ChatMsg.tool res tc.id :: ·), g₂, tc :: ex)

/-- The `_handle_tool_calls` method: execute every requested tool, extend
the conversation with the assistant message and the tool replies, and issue
the follow-up completion.  An `Except.error` propagates to the `except`
clause of `generate_story`; the placeholder text for a tool-raised
exception stands for Python's `str(e)`, which the source does not fix. -/
def handleToolCalls (stub : Stub) (log : List CallRecord) (resp : Response)
    (messages : List ChatMsg) (model : String) (g : PyRandom) :
    Except String GenResult × List CallRecord × List ToolCall :=
  match runTools resp.message.tool_calls g with
  | (none, _, ex) => (Except.error "tool execution raised", log, ex)
  | (some toolMsgs, _, ex) =>
    let messages₂ := messages ++ ChatMsg.assistant resp.message :: toolMsgs
    match callCompletion stub log messages₂ true with
    | (Except.error e, log₂) => (Except.error e, log₂, ex)
    | (Except.ok final, log₂) =>
      (Except.ok
        { success := true, content := final.message.content, model := model,
          tools_used := some (resp.message.tool_calls.map ToolCall.name),
          usage := some final.usage, error := none }, log₂, ex)

/-- The `generate_story` method: build the context, issue the first
completion (with the tool schema when tools are passed), take the tool
round trip when the response requests invocations, and convert any raised
exception into the failure dict.  Returns the outcome, the provider-call
log and the tool invocations executed. -/
def generate_story (stub : Stub) (prompt : String) (history : List HistMsg)
    (model genre : String) (toolsEnabled : Bool) (g : PyRandom) :
    GenResult × List CallRecord × List ToolCall :=
  let messages := buildMessages prompt history genre
  if toolsEnabled then
    match callCompletion stub [] messages true with
    | (Except.error e, log) => (failResult model e, log, [])
    | (Except.ok r, log) =>
      if r.message.tool_calls.isEmpty then
        (directResult model r, log, [])
      else
        match handleToolCalls stub log r messages model g with
        | (Except.ok res, log₂, ex) => (res, log₂, ex)
        | (Except.error e, log₂, ex) => (failResult model e, log₂, ex)
  else
    match callCompletion stub [] messages false with
    | (Except.error e, log) => (failResult model e, log, [])
    | (Except.ok r, log) => (directResult model r, log, [])

/-- The tool invocation requests of the first scripted response (empty when
the first call is scripted to fail). -/
def firstToolCalls (stub : Stub) : List ToolCall :=
  match stub.get? 0 with
  | some (Except.ok r) => r.message.tool_calls
  | _ => []

/-- The conversation extension built by the tool round: one tool-role
message per invocation request, in invocation order, each tagged with the
matching call id and carrying the Tool Executor's text result for that
invocation (the random state threads through the executions). -/
def toolMsgsMatch : List ToolCall → List ChatMsg → PyRandom → Prop
  | [], [], _ => True
  | tc :: tcs, m :: ms, g =>
      ∃ res g₁, execute_tool tc.name tc.arguments g = (some res, g₁)
        ∧ m = ChatMsg.tool res tc.id ∧ toolMsgsMatch tcs ms g₁
  | _, _, _ => False

/-! ### Streaming path (`generate_story_stream` and the SSE endpoint) -/

/-- One event of the provider's chunk stream: a chunk whose
`delta.content` may be absent, or an exception raised mid-iteration. -/
inductive StreamEv where
  | chunk (content : Option String)
  | err (msg : String)
deriving Repr, DecidableEq

/-- The generator body of `LLMService.generate_story_stream` (lines
199-211): each chunk with truthy content is yielded verbatim; a raised
exception is caught and relayed as one inline error fragment, ending the
stream. -/
def generate_story_stream : List StreamEv → List String
  | [] => []
  | StreamEv.chunk c :: rest =>
    (match c with
     | some s => if s = "" then [] else [s]
     | none => []) ++ generate_story_stream rest
  | StreamEv.err m :: _ => ["[Error: " ++ m ++ "]"]

/-- One server-sent event of the `/api/story/generate/stream` endpoint:
`data: json.dumps(pyobj content=chunk)` followed by a blank line. -/
def sseEvent (chunk : String) : String :=
  "data: " ++ Json.dumps (Json.obj [("content", Json.str chunk)]) ++ "\n\n"

/-- The terminating marker event of the SSE endpoint. -/
def sseDone : String := "data: [DONE]\n\n"

/-- The full event sequence produced by the endpoint's `generate()`
closure (`app.py` lines 125-133): every relayed fragment wrapped as an SSE
event, then the completion sentinel. -/
def generate_sse (evs : List StreamEv) : List String :=
  (generate_story_stream evs).map sseEvent ++ [sseDone]

/-! ### Narration input preparation (`audio_service.py` lines 53-59) -/

/-- The voice table keys of `AudioService.voices` (descriptions omitted;
only membership is consulted). -/
def voices : List String :=
  ["alloy", "echo", "fable", "onyx", "nova", "shimmer"]

/-- The voice validation step: an unknown voice falls back to onyx. -/
def narrationVoice (voice : String) : String :=
  if voice ∈ voices then voice else "onyx"

/-- The text-length limiting step of `generate_narration`: the input
Python string is modelled as its sequence of code points, `text[:4000]`
as `List.take`. -/
def narrationInput (text : List Char) : List Char :=
  if text.length > 4000 then text.take 4000 ++ "...".data else text

/-! ### Specification-side payload shapes for `get_genre_elements`

These restate, in the spec's words, what each branch of the handler is
claimed to return, for comparison with the embedded handler. -/

/-- The element mapping of a genre (its categories and their lists). -/
def elemsOf (genre : String) : List (String × List String) :=
  (alookup genre genre_elements).getD []

/-- Spec shape for `element_type == "all"`: the entire per-genre element
mapping, containing exactly the categories present for that genre. -/
def genreElementsAllPayload (genre : String) : Json :=
  Json.obj
    [("genre", Json.str genre),
     ("elements", Json.obj ((elemsOf genre).map (fun p => (p.1, Json.arr (p.2.map Json.str)))))]

/-- Spec shape for a valid category: only that category's list. -/
def genreElementsOnePayload (genre et : String) : Json :=
  Json.obj
    [("genre", Json.str genre),
     ("element_type", Json.str et),
     ("suggestions", Json.arr (((alookup et (elemsOf genre)).getD []).map Json.str))]

/-- Spec shape for an invalid category: an error payload naming the
available categories of that genre. -/
def genreElementsErrPayload (genre et : String) : Json :=
  Json.obj
    [("genre", Json.str genre),
     ("error", Json.str ("Element type \x27" ++ et ++ "\x27 not found")),
     ("available_types", Json.arr (((elemsOf genre).map Prod.fst).map Json.str))]

/-! ### Concrete fixtures used by the witness theorems -/

/-- A fixed random source (constant stream of zeros). -/
def rng0 : PyRandom := ⟨fun _ => 0, 0⟩

/-- A scripted tool invocation request. -/
def wToolCall : ToolCall := ⟨"call_1", "unknown_tool", []⟩

/-- A scripted first response carrying one tool invocation request. -/
def wResp1 : Response := ⟨⟨none, [wToolCall]⟩, ⟨7, 0, 7⟩⟩

/-- A scripted plain-content response with no tool invocation requests. -/
def wResp2 : Response := ⟨⟨some "The end.", []⟩, ⟨9, 4, 13⟩⟩

/-- A scripted response that carries both content and a tool invocation
request (used to show second-round requests are dropped). -/
def wResp2Tools : Response :=
  ⟨⟨some "More.", [⟨"call_2", "suggest_plot_twist", [("genre", "fantasy")]⟩]⟩, ⟨9, 4, 13⟩⟩

/-! ### Helper lemmas about lookups and the random primitives -/

theorem alookup_eq_none_of_not_mem {α : Type} {k : String} {l : List (String × α)}
    (h : k ∉ l.map Prod.fst) : alookup k l = none := by
  induction l with
  | nil => rfl
  | cons p rest ih =>
    simp only [List.map_cons, List.mem_cons, not_or] at h
    have hne : ¬ p.1 = k := fun he => h.1 he.symm
    simp only [alookup, if_neg hne]
    exact ih h.2

theorem alookup_isSome_of_mem {α : Type} {k : String} {l : List (String × α)}
    (h : k ∈ l.map Prod.fst) : (alookup k l).isSome = true := by
  induction l with
  | nil => simp at h
  | cons p rest ih =>
    simp only [alookup]
    by_cases he : p.1 = k
    · simp [he]
    · rw [if_neg he]
      refine ih ?_
      simp only [List.map_cons, List.mem_cons] at h
      exact h.resolve_left (fun hk => he hk.symm)

theorem mem_values_of_alookup {α : Type} {k : String} {l : List (String × α)} {v : α}
    (h : alookup k l = some v) : v ∈ l.map Prod.snd := by
  induction l with
  | nil => simp [alookup] at h
  | cons p rest ih =>
    simp only [alookup] at h
    by_cases he : p.1 = k
    · rw [if_pos he] at h
      have hv : v = p.2 := (Option.some.inj h).symm
      simp [hv]
    · rw [if_neg he] at h
      simp [ih h]

theorem resolveKey_lookup_isSome {α : Type} (tbl : List (String × α)) (k d : String)
    (hd : (alookup d tbl).isSome = true) :
    (alookup (resolveKey tbl k d) tbl).isSome = true := by
  unfold resolveKey
  split
  next h => exact h
  next => exact hd

theorem pyChoice_isSome {α : Type} (xs : List α) (g : PyRandom) (h : xs ≠ []) :
    ((pyChoice xs g).1).isSome = true := by
  have hl : 0 < xs.length := List.length_pos.mpr h
  have hlt : g.gen g.pos % xs.length < xs.length := Nat.mod_lt _ hl
  simp [pyChoice, PyRandom.next, List.get?_eq_getElem?, List.getElem?_eq_getElem hlt]

theorem pySample_isSome {α : Type} (k : Nat) :
    ∀ (xs : List α) (g : PyRandom), k ≤ xs.length →
      ((pySample xs k g).1).isSome = true := by
  induction k with
  | zero => intro xs g _; rfl
  | succ n ih =>
    intro xs g h
    have hl : 0 < xs.length := Nat.lt_of_lt_of_le (Nat.succ_pos n) h
    have hlt : (g.next).1 % xs.length < xs.length := Nat.mod_lt _ hl
    have hrec : n ≤ (xs.eraseIdx ((g.next).1 % xs.length)).length := by
      rw [List.length_eraseIdx_of_lt hlt]
      omega
    simp only [pySample, List.get?_eq_getElem?, List.getElem?_eq_getElem hlt]
    have := ih (xs.eraseIdx ((g.next).1 % xs.length)) (g.next).2 hrec
    rcases hps : pySample (xs.eraseIdx ((g.next).1 % xs.length)) n (g.next).2 with ⟨o, g₂⟩
    rw [hps] at this
    cases o with
    | none => simp at this
    | some l => simp

theorem suggest_character_name_isSome (genre gender : String) (role : Option String)
    (g : PyRandom) : ((suggest_character_name genre gender role g).1).isSome = true := by
  have hfact : ∀ v ∈ character_names.map Prod.snd,
      v.map Prod.fst = ["male", "female", "neutral"] ∧ ∀ names ∈ v.map Prod.snd, names ≠ [] := by
    decide
  have htbl0 : (alookup (resolveKey character_names (pyLower genre) "fantasy")
      character_names).isSome = true :=
    resolveKey_lookup_isSome _ _ _ (by decide)
  obtain ⟨tbl, htbl⟩ := Option.isSome_iff_exists.mp htbl0
  obtain ⟨hkeys, hne⟩ := hfact tbl (mem_values_of_alookup htbl)
  have hnames0 : (alookup (resolveKey tbl (pyLower gender) "neutral") tbl).isSome = true :=
    resolveKey_lookup_isSome _ _ _ (alookup_isSome_of_mem (by rw [hkeys]; decide))
  obtain ⟨names, hnames⟩ := Option.isSome_iff_exists.mp hnames0
  have hnn : names ≠ [] := hne names (mem_values_of_alookup hnames)
  rcases hch : pyChoice names g with ⟨oc, g₁⟩
  have hcs := pyChoice_isSome names g hnn
  rw [hch] at hcs
  obtain ⟨c, hc⟩ := Option.isSome_iff_exists.mp hcs
  subst hc
  rcases hsp : pySample names (min 3 names.length) g₁ with ⟨os, g₂⟩
  have hss := pySample_isSome (min 3 names.length) names g₁ (Nat.min_le_right _ _)
  rw [hsp] at hss
  obtain ⟨alts, ha⟩ := Option.isSome_iff_exists.mp hss
  subst ha
  simp only [suggest_character_name, htbl, hnames, hch, hsp]
  rfl

theorem suggest_plot_twist_isSome (genre : String) (cs : Option String) (g : PyRandom) :
    ((suggest_plot_twist genre cs g).1).isSome = true := by
  have hfact : ∀ v ∈ plot_twists.map Prod.snd, v ≠ [] := by decide
  have htw0 : (alookup (resolveKey plot_twists (pyLower genre) "fantasy")
      plot_twists).isSome = true :=
    resolveKey_lookup_isSome _ _ _ (by decide)
  obtain ⟨twists, htw⟩ := Option.isSome_iff_exists.mp htw0
  have hnn : twists ≠ [] := hfact twists (mem_values_of_alookup htw)
  rcases hch : pyChoice twists g with ⟨oc, g₁⟩
  have hcs := pyChoice_isSome twists g hnn
  rw [hch] at hcs
  obtain ⟨c, hc⟩ := Option.isSome_iff_exists.mp hcs
  subst hc
  simp only [suggest_plot_twist, htw, hch]
  rfl

/-- C9: the three static tables are keyed by exactly the same six genres,
every genre's name table has exactly the gender keys male, female and
neutral, every candidate list (names per gender, twists per genre, element
lists per category) is non-empty, and consequently the lookups and random
selections inside `suggest_character_name` and `suggest_plot_twist` always
succeed after fallback — for every string genre and gender and every random
state the handlers return a result and never raise. -/
theorem story_tables_wellformed_handlers_total :
    (character_names.map Prod.fst = recognizedGenres
      ∧ plot_twists.map Prod.fst = recognizedGenres
      ∧ genre_elements.map Prod.fst = recognizedGenres)
    ∧ (character_names.all (fun p => p.2.map Prod.fst == ["male", "female", "neutral"]) = true)
    ∧ (character_names.all (fun p => p.2.all (fun q => !q.2.isEmpty)) = true)
    ∧ (plot_twists.all (fun p => !p.2.isEmpty) = true)
    ∧ (genre_elements.all (fun p => p.2.all (fun q => !q.2.isEmpty)) = true)
    ∧ (∀ genre gender role g, ((suggest_character_name genre gender role g).1).isSome = true)
    ∧ (∀ genre cs g, ((suggest_plot_twist genre cs g).1).isSome = true) :=
  ⟨by decide, by decide, by decide, by decide, by decide,
   suggest_character_name_isSome, suggest_plot_twist_isSome⟩

/-- C6 counterexample: the claim quantifies over every genre string not
among the six recognized values, but the handlers lowercase their inputs
before the fallback check, so the unrecognized string HORROR behaves like
horror, not like fantasy. -/
theorem genre_fallback_claim_ce :
    "HORROR" ∉ recognizedGenres
    ∧ (suggest_plot_twist "HORROR" none ⟨fun _ => 0, 0⟩).1 ≠
        (suggest_plot_twist "fantasy" none ⟨fun _ => 0, 0⟩).1 := by
  decide

/-- C6 (amended): for every genre string whose lowercased form is not among
the six recognized values, `suggest_character_name`, `suggest_plot_twist`
and `get_genre_elements` behave identically to the same call with genre
fantasy; and for every gender string whose lowercased form is not in
male/female/neutral, `suggest_character_name` behaves identically to the
same call with gender neutral — the lookup falls back rather than
failing. -/
theorem genre_gender_lowercase_fallback (genre gender : String)
    (role cs : Option String) (et : String) (g : PyRandom) :
    (pyLower genre ∉ recognizedGenres →
      suggest_character_name genre gender role g = suggest_character_name "fantasy" gender role g
      ∧ suggest_plot_twist genre cs g = suggest_plot_twist "fantasy" cs g
      ∧ get_genre_elements genre et = get_genre_elements "fantasy" et)
    ∧ (pyLower gender ∉ ["male", "female", "neutral"] →
      suggest_character_name genre gender role g = suggest_character_name genre "neutral" role g) := by
  constructor
  · intro h
    have hkc : alookup (pyLower genre) character_names = none :=
      alookup_eq_none_of_not_mem
        (by rw [(by decide : character_names.map Prod.fst = recognizedGenres)]; exact h)
    have hkt : alookup (pyLower genre) plot_twists = none :=
      alookup_eq_none_of_not_mem
        (by rw [(by decide : plot_twists.map Prod.fst = recognizedGenres)]; exact h)
    have hke : alookup (pyLower genre) genre_elements = none :=
      alookup_eq_none_of_not_mem
        (by rw [(by decide : genre_elements.map Prod.fst = recognizedGenres)]; exact h)
    have h1 : resolveKey character_names (pyLower genre) "fantasy" = "fantasy" := by
      unfold resolveKey; simp [hkc]
    have h1f : resolveKey character_names (pyLower "fantasy") "fantasy" = "fantasy" := by decide
    have h2 : resolveKey plot_twists (pyLower genre) "fantasy" = "fantasy" := by
      unfold resolveKey; simp [hkt]
    have h2f : resolveKey plot_twists (pyLower "fantasy") "fantasy" = "fantasy" := by decide
    have h3 : resolveKey genre_elements (pyLower genre) "fantasy" = "fantasy" := by
      unfold resolveKey; simp [hke]
    have h3f : resolveKey genre_elements (pyLower "fantasy") "fantasy" = "fantasy" := by decide
    exact ⟨by simp only [suggest_character_name, h1, h1f],
           by simp only [suggest_plot_twist, h2, h2f],
           by simp only [get_genre_elements, h3, h3f]⟩
  · intro h
    simp only [suggest_character_name]
    rcases htbl : alookup (resolveKey character_names (pyLower genre) "fantasy")
        character_names with _ | tbl
    · rfl
    · have hkeys : tbl.map Prod.fst = ["male", "female", "neutral"] :=
        (by decide : ∀ v ∈ character_names.map Prod.snd,
            v.map Prod.fst = ["male", "female", "neutral"]) tbl (mem_values_of_alookup htbl)
      have hgd : alookup (pyLower gender) tbl = none :=
        alookup_eq_none_of_not_mem (by rw [hkeys]; exact h)
      have hr1 : resolveKey tbl (pyLower gender) "neutral" = "neutral" := by
        unfold resolveKey; simp [hgd]
      have hr2 : resolveKey tbl (pyLower "neutral") "neutral" = "neutral" := by
        have hn : pyLower "neutral" = "neutral" := by decide
        have hni : (alookup "neutral" tbl).isSome = true :=
          alookup_isSome_of_mem (by rw [hkeys]; decide)
        rw [hn]; unfold resolveKey; simp [hni]
      simp only [hr1, hr2]

/-- C6 witness: concrete applications of the amended fallback law at the
unrecognized genre Cyberpunk and the unrecognized gender Unknown. -/
theorem genre_gender_lowercase_fallback_instance :
    (pyLower "Cyberpunk" ∉ recognizedGenres
      ∧ suggest_character_name "Cyberpunk" "male" none ⟨fun _ => 0, 0⟩ =
          suggest_character_name "fantasy" "male" none ⟨fun _ => 0, 0⟩)
    ∧ (pyLower "Unknown" ∉ ["male", "female", "neutral"]
      ∧ suggest_character_name "fantasy" "Unknown" none ⟨fun _ => 0, 0⟩ =
          suggest_character_name "fantasy" "neutral" none ⟨fun _ => 0, 0⟩) :=
  ⟨⟨by decide,
    ((genre_gender_lowercase_fallback "Cyberpunk" "male" none none "all"
        ⟨fun _ => 0, 0⟩).1 (by decide)).1⟩,
   ⟨by decide,
    (genre_gender_lowercase_fallback "fantasy" "Unknown" none none "all"
        ⟨fun _ => 0, 0⟩).2 (by decide)⟩⟩

/-- Branch behavior of `get_genre_elements` for a genre key that is its own
lowercase form and is present in the table (helper for the payload
theorem). -/
theorem get_genre_elements_branches (genre : String)
    (hself : pyLower genre = genre)
    (hsome : (alookup genre genre_elements).isSome = true)
    (hall : alookup "all" (elemsOf genre) = none) (et : String) :
    get_genre_elements genre "all" = some (Json.dumps (genreElementsAllPayload genre))
    ∧ ((alookup (pyLower et) (elemsOf genre)).isSome = true →
        get_genre_elements genre et = some (Json.dumps (genreElementsOnePayload genre (pyLower et))))
    ∧ (pyLower et ≠ "all" → alookup (pyLower et) (elemsOf genre) = none →
        get_genre_elements genre et = some (Json.dumps (genreElementsErrPayload genre (pyLower et)))) := by
  obtain ⟨elems, helems⟩ := Option.isSome_iff_exists.mp hsome
  have hres : resolveKey genre_elements (pyLower genre) "fantasy" = genre := by
    unfold resolveKey; rw [hself]; simp [helems]
  have helemsOf : elemsOf genre = elems := by simp [elemsOf, helems]
  rw [helemsOf] at hall
  refine ⟨?_, ?_, ?_⟩
  · simp only [get_genre_elements, hres, helems, (by decide : pyLower "all" = "all"),
      if_pos rfl]
    simp [genreElementsAllPayload, helemsOf]
  · intro hyp
    rw [helemsOf] at hyp
    obtain ⟨lst, hlst⟩ := Option.isSome_iff_exists.mp hyp
    have hne : pyLower et ≠ "all" := by
      intro he; rw [he, hall] at hlst; exact Option.noConfusion hlst
    simp only [get_genre_elements, hres, helems, if_neg hne, hlst]
    simp [genreElementsOnePayload, helemsOf, hlst]
  · intro hne hnone
    rw [helemsOf] at hnone
    simp only [get_genre_elements, hres, helems, if_neg hne, hnone]
    simp [genreElementsErrPayload, helemsOf]

set_option maxRecDepth 4000 in
/-- C7 counterexample: the claim requires every element type other than
the literal string all and the genre's categories to yield an error
payload, but the handler lowercases the element type first: ALL returns
the full mapping (no error field), identical to all. -/
theorem get_genre_elements_claim_ce :
    get_genre_elements "fantasy" "ALL" = get_genre_elements "fantasy" "all"
    ∧ (get_genre_elements "fantasy" "ALL").isSome = true
    ∧ ¬ List.IsInfix "\"error\"".data ((get_genre_elements "fantasy" "ALL").getD "").data := by
  decide

/-- C7 (amended): for every recognized genre, `get_genre_elements` with
element type all returns the JSON-encoded mapping containing exactly the
element categories present for that genre; when the lowercased element
type names a category present for that genre, only that category's list;
and for any element type whose lowercased form is neither all nor a
category of that genre it returns, without raising, an error payload
listing that genre's actual available categories. -/
theorem get_genre_elements_payloads (genre : String) (hg : genre ∈ recognizedGenres)
    (et : String) :
    get_genre_elements genre "all" = some (Json.dumps (genreElementsAllPayload genre))
    ∧ ((alookup (pyLower et) (elemsOf genre)).isSome = true →
        get_genre_elements genre et = some (Json.dumps (genreElementsOnePayload genre (pyLower et))))
    ∧ (pyLower et ≠ "all" → alookup (pyLower et) (elemsOf genre) = none →
        get_genre_elements genre et = some (Json.dumps (genreElementsErrPayload genre (pyLower et)))) := by
  have h6 : genre = "fantasy" ∨ genre = "sci-fi" ∨ genre = "mystery" ∨ genre = "romance"
      ∨ genre = "horror" ∨ genre = "adventure" := by
    simpa [recognizedGenres] using hg
  rcases h6 with rfl | rfl | rfl | rfl | rfl | rfl
  all_goals exact get_genre_elements_branches _ (by decide) (by decide) (by decide) et

/-- C7 witness: the amended payload law applied at genre romance with the
valid request all and the invalid category items (romance has no items
category). -/
theorem get_genre_elements_payloads_instance :
    ("romance" ∈ recognizedGenres)
    ∧ get_genre_elements "romance" "all" = some (Json.dumps (genreElementsAllPayload "romance"))
    ∧ (pyLower "items" ≠ "all")
    ∧ (alookup (pyLower "items") (elemsOf "romance") = none)
    ∧ get_genre_elements "romance" "items" =
        some (Json.dumps (genreElementsErrPayload "romance" (pyLower "items"))) :=
  ⟨by decide,
   (get_genre_elements_payloads "romance" (by decide) "items").1,
   by decide,
   by decide,
   (get_genre_elements_payloads "romance" (by decide) "items").2.2 (by decide) (by decide)⟩

/-- C10: a narration text longer than 4000 characters is sent to the TTS
provider as its first 4000 characters with an ellipsis appended (never
more than 4003 characters); a text of at most 4000 characters is sent
unchanged. -/
theorem narration_text_truncation (text : List Char) :
    (text.length > 4000 →
      narrationInput text = text.take 4000 ++ "...".data
      ∧ (narrationInput text).length ≤ 4003)
    ∧ (text.length ≤ 4000 → narrationInput text = text) := by
  constructor
  · intro h
    have he : narrationInput text = text.take 4000 ++ "...".data := by
      unfold narrationInput; rw [if_pos h]
    refine ⟨he, ?_⟩
    rw [he]
    have hm : min 4000 text.length = 4000 := Nat.min_eq_left (Nat.le_of_lt h)
    simp [List.length_take, hm]
  · intro h
    unfold narrationInput
    rw [if_neg (by omega)]

/-- C10 witness: the truncation law applied to a 4001-character text and to
a short text. -/
theorem narration_text_truncation_instance :
    ((List.replicate 4001 'a').length > 4000
      ∧ narrationInput (List.replicate 4001 'a')
          = (List.replicate 4001 'a').take 4000 ++ "...".data
      ∧ (narrationInput (List.replicate 4001 'a')).length ≤ 4003)
    ∧ ("hi".data.length ≤ 4000 ∧ narrationInput "hi".data = "hi".data) :=
  ⟨⟨by rw [List.length_replicate]; omega,
    ((narration_text_truncation (List.replicate 4001 'a')).1 (by rw [List.length_replicate]; omega)).1,
    ((narration_text_truncation (List.replicate 4001 'a')).1 (by rw [List.length_replicate]; omega)).2⟩,
   ⟨by decide, (narration_text_truncation ("hi".data)).2 (by decide)⟩⟩

/-- C8 counterexample: a provider chunk whose content is the empty string
is a content fragment in the claim's sense, but its truthiness test fails
and it is dropped from the relayed stream rather than forwarded. -/
theorem stream_empty_fragment_ce :
    generate_story_stream [StreamEv.chunk (some "")] = []
    ∧ generate_story_stream [StreamEv.chunk (some "")] ≠ [""] := by
  decide

/-- Relaying a run of non-empty content chunks prepends exactly those
fragments to the relay of the remaining events. -/
theorem relay_append (l : List String) :
    (∀ f ∈ l, f ≠ "") → ∀ (tail : List StreamEv),
      generate_story_stream (l.map (fun f => StreamEv.chunk (some f)) ++ tail)
        = l ++ generate_story_stream tail := by
  induction l with
  | nil => intro _ tail; simp
  | cons x xs ih =>
    intro hl tail
    have hx : x ≠ "" := hl x (by simp)
    have ih₁ := ih (fun f hf => hl f (by simp [hf])) tail
    simp only [List.map_cons, List.cons_append, generate_story_stream, if_neg hx,
      List.append_eq, ih₁]
    simp

/-- C8 (amended): when the provider yields a finite sequence of non-empty
content fragments, the relayed stream is exactly those fragments in order,
each verbatim, and the SSE endpoint emits them wrapped as content events
followed by the completion sentinel; when the provider raises mid-stream,
the relay is the fragments already delivered followed by one inline error
fragment, after which the stream terminates with no exception and no
separate error event (empty-string fragments would be dropped, which is why
the claim is restricted to non-empty ones). -/
theorem stream_relay_behavior (frags : List String) (h : ∀ f ∈ frags, f ≠ "") :
    generate_story_stream (frags.map (fun f => StreamEv.chunk (some f))) = frags
    ∧ generate_sse (frags.map (fun f => StreamEv.chunk (some f)))
        = frags.map sseEvent ++ [sseDone]
    ∧ ∀ m post,
        generate_story_stream (frags.map (fun f => StreamEv.chunk (some f))
            ++ StreamEv.err m :: post)
          = frags ++ ["[Error: " ++ m ++ "]"] := by
  have h₁ : generate_story_stream (frags.map (fun f => StreamEv.chunk (some f))) = frags := by
    have := relay_append frags h []
    simpa [generate_story_stream] using this
  refine ⟨h₁, ?_, ?_⟩
  · unfold generate_sse
    rw [h₁]
  · intro m post
    rw [relay_append frags h (StreamEv.err m :: post)]
    rfl

/-- C8 witness: the amended relay law at the spec's example fragment
sequence. -/
theorem stream_relay_behavior_instance :
    (∀ f ∈ ["Once", " upon", " a time"], f ≠ "")
    ∧ generate_story_stream
        (["Once", " upon", " a time"].map (fun f => StreamEv.chunk (some f)))
        = ["Once", " upon", " a time"]
    ∧ generate_sse (["Once", " upon", " a time"].map (fun f => StreamEv.chunk (some f)))
        = ["Once", " upon", " a time"].map sseEvent ++ [sseDone] :=
  ⟨by decide,
   (stream_relay_behavior ["Once", " upon", " a time"] (by decide)).1,
   (stream_relay_behavior ["Once", " upon", " a time"] (by decide)).2.1⟩

/-! ### Orchestrator lemmas -/

/-- A matching tool-message list has one entry per invocation request. -/
theorem toolMsgsMatch_length :
    ∀ (tcs : List ToolCall) (ms : List ChatMsg) (g : PyRandom),
      toolMsgsMatch tcs ms g → ms.length = tcs.length := by
  intro tcs
  induction tcs with
  | nil =>
    intro ms g h
    cases ms with
    | nil => rfl
    | cons m ms₁ => simp [toolMsgsMatch] at h
  | cons tc rest ih =>
    intro ms g h
    cases ms with
    | nil => simp [toolMsgsMatch] at h
    | cons m ms₁ =>
      obtain ⟨res, g₁, _, _, hm⟩ := h
      simp [ih ms₁ g₁ hm]

/-- A successful tool round produces matching tool messages and executes
exactly the requested invocations. -/
theorem runTools_ok :
    ∀ (tcs : List ToolCall) (g : PyRandom) {ms : List ChatMsg} {g₂ : PyRandom}
      {ex : List ToolCall},
      runTools tcs g = (some ms, g₂, ex) → toolMsgsMatch tcs ms g ∧ ex = tcs := by
  intro tcs
  induction tcs with
  | nil =>
    intro g ms g₂ ex h
    simp only [runTools, Prod.mk.injEq] at h
    obtain ⟨h₁, _, h₃⟩ := h
    cases Option.some.inj h₁
    exact ⟨trivial, h₃.symm⟩
  | cons tc rest ih =>
    intro g ms g₂ ex h
    simp only [runTools] at h
    split at h
    next g₁ heq => simp at h
    next res g₁ heq =>
      rcases hr : runTools rest g₁ with ⟨o₂, g₃, ex₂⟩
      rw [hr] at h
      cases o₂ with
      | none => simp at h
      | some ms₂ =>
        simp only [Option.map, Prod.mk.injEq] at h
        obtain ⟨hms, _, hex⟩ := h
        cases Option.some.inj hms
        cases hex
        obtain ⟨hmatch, hexeq⟩ := ih g₁ hr
        exact ⟨⟨res, g₁, heq, rfl, hmatch⟩, by rw [hexeq]⟩

/-- The tool round only ever executes invocations from the request list it
was given. -/
theorem runTools_executed :
    ∀ (tcs : List ToolCall) (g : PyRandom), ∀ tc ∈ (runTools tcs g).2.2, tc ∈ tcs := by
  intro tcs
  induction tcs with
  | nil => intro g tc h; simp [runTools] at h
  | cons t rest ih =>
    intro g tc h
    simp only [runTools] at h
    split at h
    next g₁ heq =>
      simp at h
      simp [h]
    next res g₁ heq =>
      simp at h
      rcases h with rfl | h
      · simp
      · have := ih g₁ tc h
        simp [this]

/-- C1: when the first completion response carries tool invocation
requests, every requested tool executes successfully and the second
completion succeeds, the outcome is success with the second response's
content and the ordered requested tool names, and the message sequence
passed to the second completion call is exactly the originally built
messages, then the assistant message carrying the requests, then one
tool-role message per invocation in order, each tagged with the matching
call id and containing the Tool Executor's text result. -/
theorem generate_story_tool_roundtrip (stub : Stub) (prompt : String)
    (history : List HistMsg) (model genre : String) (g : PyRandom)
    (r₁ r₂ : Response) (ms : List ChatMsg) (g₂ : PyRandom) (ex : List ToolCall)
    (h0 : stub.get? 0 = some (Except.ok r₁))
    (htc : r₁.message.tool_calls ≠ [])
    (hrt : runTools r₁.message.tool_calls g = (some ms, g₂, ex))
    (h1 : stub.get? 1 = some (Except.ok r₂)) :
    (generate_story stub prompt history model genre true g).1.success = true
    ∧ (generate_story stub prompt history model genre true g).1.content = r₂.message.content
    ∧ (generate_story stub prompt history model genre true g).1.tools_used
        = some (r₁.message.tool_calls.map ToolCall.name)
    ∧ (generate_story stub prompt history model genre true g).1.usage = some r₂.usage
    ∧ (generate_story stub prompt history model genre true g).2.1
        = [⟨buildMessages prompt history genre, true⟩,
           ⟨buildMessages prompt history genre ++ ChatMsg.assistant r₁.message :: ms, true⟩]
    ∧ ms.length = r₁.message.tool_calls.length
    ∧ toolMsgsMatch r₁.message.tool_calls ms g := by
  have hie : r₁.message.tool_calls.isEmpty = false := by
    cases hc : r₁.message.tool_calls with
    | nil => exact absurd hc htc
    | cons a l => rfl
  have hkey : generate_story stub prompt history model genre true g
      = ({ success := true, content := r₂.message.content, model := model,
           tools_used := some (r₁.message.tool_calls.map ToolCall.name),
           usage := some r₂.usage, error := none },
         [⟨buildMessages prompt history genre, true⟩,
          ⟨buildMessages prompt history genre ++ ChatMsg.assistant r₁.message :: ms, true⟩],
         ex) := by
    have h0g : stub[0]? = some (Except.ok r₁) := by
      rw [← List.get?_eq_getElem?]; exact h0
    have h1g : stub[1]? = some (Except.ok r₂) := by
      rw [← List.get?_eq_getElem?]; exact h1
    unfold generate_story
    simp [callCompletion, handleToolCalls, h0g, h1g, htc, hrt]
  rw [hkey]
  obtain ⟨hmatch, _⟩ := runTools_ok _ _ hrt
  exact ⟨rfl, rfl, rfl, rfl, rfl, toolMsgsMatch_length _ _ _ hmatch, hmatch⟩

/-- C1 witness: a concrete round trip against a two-response stub whose
first response requests one tool invocation. -/
theorem generate_story_tool_roundtrip_instance :
    ([Except.ok wResp1, Except.ok wResp2] : Stub).get? 0 = some (Except.ok wResp1)
    ∧ wResp1.message.tool_calls ≠ []
    ∧ runTools wResp1.message.tool_calls rng0
        = (some [ChatMsg.tool "Unknown tool: unknown_tool" "call_1"], rng0, [wToolCall])
    ∧ ([Except.ok wResp1, Except.ok wResp2] : Stub).get? 1 = some (Except.ok wResp2)
    ∧ (generate_story [Except.ok wResp1, Except.ok wResp2] "Continue the story" []
        "gpt-4o-mini" "fantasy" true rng0).1.success = true
    ∧ (generate_story [Except.ok wResp1, Except.ok wResp2] "Continue the story" []
        "gpt-4o-mini" "fantasy" true rng0).1.content = some "The end."
    ∧ (generate_story [Except.ok wResp1, Except.ok wResp2] "Continue the story" []
        "gpt-4o-mini" "fantasy" true rng0).1.tools_used = some ["unknown_tool"] := by
  have h := generate_story_tool_roundtrip [Except.ok wResp1, Except.ok wResp2]
      "Continue the story" [] "gpt-4o-mini" "fantasy" rng0 wResp1 wResp2
      [ChatMsg.tool "Unknown tool: unknown_tool" "call_1"] rng0 [wToolCall]
      rfl (by decide) rfl rfl
  exact ⟨rfl, by decide, rfl, rfl, h.1, h.2.1, h.2.2.1⟩

/-- C2: at most two completion-provider calls are issued per generate call,
only invocation requests from the first completion's response are ever
executed by the Tool Executor, and tools_used is either absent or exactly
the ordered names of the first response's invocation requests — there is at
most one round of tool invocation, never a recursive round trip. -/
theorem generate_story_single_tool_round (stub : Stub) (prompt : String)
    (history : List HistMsg) (model genre : String) (toolsEnabled : Bool) (g : PyRandom) :
    (generate_story stub prompt history model genre toolsEnabled g).2.1.length ≤ 2
    ∧ (∀ tc ∈ (generate_story stub prompt history model genre toolsEnabled g).2.2,
        tc ∈ firstToolCalls stub)
    ∧ ((generate_story stub prompt history model genre toolsEnabled g).1.tools_used = none
      ∨ (generate_story stub prompt history model genre toolsEnabled g).1.tools_used
          = some ((firstToolCalls stub).map ToolCall.name)) := by
  rcases h0 : stub.get? 0 with _ | er
  · have h0g : stub[0]? = none := by rw [← List.get?_eq_getElem?]; exact h0
    have hkey : generate_story stub prompt history model genre toolsEnabled g
        = (failResult model "provider stub exhausted",
           [⟨buildMessages prompt history genre, toolsEnabled⟩], []) := by
      unfold generate_story
      cases toolsEnabled <;> simp [callCompletion, h0g]
    rw [hkey]
    exact ⟨by simp, by simp, Or.inl rfl⟩
  · rcases er with e | r
    · have h0g : stub[0]? = some (Except.error e) := by
        rw [← List.get?_eq_getElem?]; exact h0
      have hkey : generate_story stub prompt history model genre toolsEnabled g
          = (failResult model e,
             [⟨buildMessages prompt history genre, toolsEnabled⟩], []) := by
        unfold generate_story
        cases toolsEnabled <;> simp [callCompletion, h0g]
      rw [hkey]
      exact ⟨by simp, by simp, Or.inl rfl⟩
    · have h0g : stub[0]? = some (Except.ok r) := by
        rw [← List.get?_eq_getElem?]; exact h0
      have hf : firstToolCalls stub = r.message.tool_calls := by
        simp [firstToolCalls, h0g]
      cases toolsEnabled with
      | false =>
        have hkey : generate_story stub prompt history model genre false g
            = (directResult model r,
               [⟨buildMessages prompt history genre, false⟩], []) := by
          unfold generate_story
          simp [callCompletion, h0g]
        rw [hkey]
        exact ⟨by simp, by simp, Or.inl rfl⟩
      | true =>
        by_cases htc : r.message.tool_calls = []
        · have hkey : generate_story stub prompt history model genre true g
              = (directResult model r,
                 [⟨buildMessages prompt history genre, true⟩], []) := by
            unfold generate_story
            simp [callCompletion, h0g, htc]
          rw [hkey]
          exact ⟨by simp, by simp, Or.inl rfl⟩
        · rcases hrt : runTools r.message.tool_calls g with ⟨o, g₃, ex⟩
          have hex : ∀ tc ∈ ex, tc ∈ firstToolCalls stub := by
            intro tc h
            rw [hf]
            exact runTools_executed _ _ tc (by rw [hrt]; exact h)
          cases o with
          | none =>
            have hkey : generate_story stub prompt history model genre true g
                = (failResult model "tool execution raised",
                   [⟨buildMessages prompt history genre, true⟩], ex) := by
              unfold generate_story
              simp [callCompletion, handleToolCalls, h0g, htc, hrt]
            rw [hkey]
            exact ⟨by simp, hex, Or.inl rfl⟩
          | some ms =>
            rcases h1 : stub.get? 1 with _ | er₁
            · have h1g : stub[1]? = none := by rw [← List.get?_eq_getElem?]; exact h1
              have hkey : generate_story stub prompt history model genre true g
                  = (failResult model "provider stub exhausted",
                     [⟨buildMessages prompt history genre, true⟩,
                      ⟨buildMessages prompt history genre
                        ++ ChatMsg.assistant r.message :: ms, true⟩], ex) := by
                unfold generate_story
                simp [callCompletion, handleToolCalls, h0g, htc, hrt, h1g]
              rw [hkey]
              exact ⟨by simp, hex, Or.inl rfl⟩
            · rcases er₁ with e₁ | r₁
              · have h1g : stub[1]? = some (Except.error e₁) := by
                  rw [← List.get?_eq_getElem?]; exact h1
                have hkey : generate_story stub prompt history model genre true g
                    = (failResult model e₁,
                       [⟨buildMessages prompt history genre, true⟩,
                        ⟨buildMessages prompt history genre
                          ++ ChatMsg.assistant r.message :: ms, true⟩], ex) := by
                  unfold generate_story
                  simp [callCompletion, handleToolCalls, h0g, htc, hrt, h1g]
                rw [hkey]
                exact ⟨by simp, hex, Or.inl rfl⟩
              · have h1g : stub[1]? = some (Except.ok r₁) := by
                  rw [← List.get?_eq_getElem?]; exact h1
                have hkey : generate_story stub prompt history model genre true g
                    = ({ success := true, content := r₁.message.content, model := model,
                         tools_used := some (r.message.tool_calls.map ToolCall.name),
                         usage := some r₁.usage, error := none },
                       [⟨buildMessages prompt history genre, true⟩,
                        ⟨buildMessages prompt history genre
                          ++ ChatMsg.assistant r.message :: ms, true⟩], ex) := by
                  unfold generate_story
                  simp [callCompletion, handleToolCalls, h0g, htc, hrt, h1g]
                rw [hkey]
                refine ⟨by simp, hex, Or.inr ?_⟩
                rw [hf]

/-- C2 witness: a concrete run whose second scripted response itself
carries a tool invocation request; the bounds of the single-round law hold
there and that second-round request is neither executed nor reported. -/
theorem generate_story_single_tool_round_instance :
    (generate_story [Except.ok wResp1, Except.ok wResp2Tools] "Continue" []
        "gpt-4o-mini" "fantasy" true rng0).2.1.length ≤ 2
    ∧ (∀ tc ∈ (generate_story [Except.ok wResp1, Except.ok wResp2Tools] "Continue" []
          "gpt-4o-mini" "fantasy" true rng0).2.2,
        tc ∈ firstToolCalls [Except.ok wResp1, Except.ok wResp2Tools])
    ∧ ((generate_story [Except.ok wResp1, Except.ok wResp2Tools] "Continue" []
          "gpt-4o-mini" "fantasy" true rng0).1.tools_used = none
      ∨ (generate_story [Except.ok wResp1, Except.ok wResp2Tools] "Continue" []
          "gpt-4o-mini" "fantasy" true rng0).1.tools_used
          = some ((firstToolCalls [Except.ok wResp1, Except.ok wResp2Tools]).map ToolCall.name)) :=
  generate_story_single_tool_round [Except.ok wResp1, Except.ok wResp2Tools] "Continue" []
    "gpt-4o-mini" "fantasy" true rng0

/-- C3: an exception raised by the provider at the first completion, or at
the second completion after a successful tool round, aborts the call and
yields the failure outcome: success false, error equal to the exception's
message, the model identifier and no content — no partial result. -/
theorem generate_story_provider_error (stub : Stub) (prompt : String)
    (history : List HistMsg) (model genre : String) (toolsEnabled : Bool)
    (g : PyRandom) (e : String) :
    (stub.get? 0 = some (Except.error e) →
      generate_story stub prompt history model genre toolsEnabled g
        = (failResult model e, [⟨buildMessages prompt history genre, toolsEnabled⟩], []))
    ∧ (∀ (r : Response) (ms : List ChatMsg) (g₂ : PyRandom) (ex : List ToolCall),
        stub.get? 0 = some (Except.ok r) → r.message.tool_calls ≠ [] →
        runTools r.message.tool_calls g = (some ms, g₂, ex) →
        stub.get? 1 = some (Except.error e) →
        (generate_story stub prompt history model genre true g).1 = failResult model e)
    ∧ ((failResult model e).success = false ∧ (failResult model e).content = none
        ∧ (failResult model e).error = some e ∧ (failResult model e).model = model) := by
  refine ⟨?_, ?_, rfl, rfl, rfl, rfl⟩
  · intro h0
    have h0g : stub[0]? = some (Except.error e) := by
      rw [← List.get?_eq_getElem?]; exact h0
    unfold generate_story
    cases toolsEnabled <;> simp [callCompletion, h0g]
  · intro r ms g₂ ex h0 htc hrt h1
    have h0g : stub[0]? = some (Except.ok r) := by
      rw [← List.get?_eq_getElem?]; exact h0
    have h1g : stub[1]? = some (Except.error e) := by
      rw [← List.get?_eq_getElem?]; exact h1
    unfold generate_story
    simp [callCompletion, handleToolCalls, h0g, h1g, htc, hrt]

/-- C3 witness: the failure law at a stub whose first call raises. -/
theorem generate_story_provider_error_instance :
    ([Except.error "boom"] : Stub).get? 0 = some (Except.error "boom")
    ∧ generate_story [Except.error "boom"] "Continue" [] "gpt-4o-mini" "fantasy" true rng0
        = (failResult "gpt-4o-mini" "boom",
           [⟨buildMessages "Continue" [] "fantasy", true⟩], []) :=
  ⟨rfl,
   (generate_story_provider_error [Except.error "boom"] "Continue" [] "gpt-4o-mini"
      "fantasy" true rng0 "boom").1 rfl⟩

/-- C4: when the first completion response carries no tool invocation
requests, exactly one provider call is made, no tool is executed, the
outcome succeeds with the first response's content and its tools_used
carries no tool names (the key is absent on this path). -/
theorem generate_story_direct_path (stub : Stub) (prompt : String)
    (history : List HistMsg) (model genre : String) (toolsEnabled : Bool)
    (g : PyRandom) (r : Response)
    (h0 : stub.get? 0 = some (Except.ok r))
    (hnt : r.message.tool_calls = []) :
    (generate_story stub prompt history model genre toolsEnabled g).1.success = true
    ∧ (generate_story stub prompt history model genre toolsEnabled g).1.content
        = r.message.content
    ∧ (generate_story stub prompt history model genre toolsEnabled g).1.tools_used = none
    ∧ ((generate_story stub prompt history model genre toolsEnabled g).1.tools_used.getD [])
        = []
    ∧ (generate_story stub prompt history model genre toolsEnabled g).2.1.length = 1
    ∧ (generate_story stub prompt history model genre toolsEnabled g).2.2 = [] := by
  have h0g : stub[0]? = some (Except.ok r) := by
    rw [← List.get?_eq_getElem?]; exact h0
  have hkey : generate_story stub prompt history model genre toolsEnabled g
      = (directResult model r, [⟨buildMessages prompt history genre, toolsEnabled⟩], []) := by
    unfold generate_story
    cases toolsEnabled <;> simp [callCompletion, h0g, hnt]
  rw [hkey]
  exact ⟨rfl, rfl, rfl, rfl, rfl, rfl⟩

/-- C4 witness: the direct-path law at a one-response stub with no tool
invocation requests. -/
theorem generate_story_direct_path_instance :
    ([Except.ok wResp2] : Stub).get? 0 = some (Except.ok wResp2)
    ∧ wResp2.message.tool_calls = []
    ∧ (generate_story [Except.ok wResp2] "Once" [] "gpt-4o-mini" "fantasy" true
        rng0).1.success = true
    ∧ (generate_story [Except.ok wResp2] "Once" [] "gpt-4o-mini" "fantasy" true
        rng0).1.tools_used = none
    ∧ (generate_story [Except.ok wResp2] "Once" [] "gpt-4o-mini" "fantasy" true
        rng0).2.1.length = 1 := by
  have h := generate_story_direct_path [Except.ok wResp2] "Once" [] "gpt-4o-mini"
      "fantasy" true rng0 wResp2 rfl rfl
  exact ⟨rfl, rfl, h.1, h.2.2.1, h.2.2.2.2.1⟩

/-- The first provider call of any generate run receives exactly the built
context (and the tool schema exactly when tools are passed). -/
theorem generate_log_head (stub : Stub) (prompt : String) (history : List HistMsg)
    (model genre : String) (toolsEnabled : Bool) (g : PyRandom) :
    ((generate_story stub prompt history model genre toolsEnabled g).2.1).get? 0
      = some ⟨buildMessages prompt history genre, toolsEnabled⟩ := by
  rcases h0 : stub.get? 0 with _ | er
  · have h0g : stub[0]? = none := by rw [← List.get?_eq_getElem?]; exact h0
    unfold generate_story
    cases toolsEnabled <;> simp [callCompletion, h0g]
  · rcases er with e | r
    · have h0g : stub[0]? = some (Except.error e) := by
        rw [← List.get?_eq_getElem?]; exact h0
      unfold generate_story
      cases toolsEnabled <;> simp [callCompletion, h0g]
    · have h0g : stub[0]? = some (Except.ok r) := by
        rw [← List.get?_eq_getElem?]; exact h0
      cases toolsEnabled with
      | false =>
        unfold generate_story
        simp [callCompletion, h0g]
      | true =>
        by_cases htc : r.message.tool_calls = []
        · unfold generate_story
          simp [callCompletion, h0g, htc]
        · rcases hrt : runTools r.message.tool_calls g with ⟨o, g₃, ex⟩
          cases o with
          | none =>
            unfold generate_story
            simp [callCompletion, handleToolCalls, h0g, htc, hrt]
          | some ms =>
            rcases h1 : stub.get? 1 with _ | er₁
            · have h1g : stub[1]? = none := by rw [← List.get?_eq_getElem?]; exact h1
              unfold generate_story
              simp [callCompletion, handleToolCalls, h0g, htc, hrt, h1g]
            · rcases er₁ with e₁ | r₁
              · have h1g : stub[1]? = some (Except.error e₁) := by
                  rw [← List.get?_eq_getElem?]; exact h1
                unfold generate_story
                simp [callCompletion, handleToolCalls, h0g, htc, hrt, h1g]
              · have h1g : stub[1]? = some (Except.ok r₁) := by
                  rw [← List.get?_eq_getElem?]; exact h1
                unfold generate_story
                simp [callCompletion, handleToolCalls, h0g, htc, hrt, h1g]

set_option maxRecDepth 10000 in
/-- C5 counterexample: the claim states that the genre directive is
appended to the base instructions verbatim, but the code prepends a newline
and wraps the directive in square brackets, so the first message sent to
the provider differs from the claimed one. -/
theorem generate_context_claim_ce :
    ((generate_story [] "hi" [] "gpt-4o-mini" "fantasy" true rng0).2.1).get? 0 ≠
      some ⟨[ChatMsg.plain "system"
          (system_prompt ++ "Current genre: fantasy. Maintain this style throughout."),
        ChatMsg.plain "user" "hi"], true⟩ := by
  decide

/-- C5 (amended): the message sequence sent to the first completion call is
a single leading system message whose content is the fixed base
instructions followed by a newline and the bracketed genre directive, then
each history entry in order with role and content preserved verbatim, then
a final user message carrying the prompt. -/
theorem generate_context_structure (stub : Stub) (prompt : String)
    (hist : List (String × String)) (model genre : String) (toolsEnabled : Bool)
    (g : PyRandom) :
    ((generate_story stub prompt (hist.map (fun rc => ⟨some rc.1, some rc.2⟩)) model genre
        toolsEnabled g).2.1).get? 0
      = some ⟨ChatMsg.plain "system"
            (system_prompt ++ "\n[Current genre: " ++ genre ++ ". Maintain this style throughout.]")
          :: (hist.map (fun rc => ChatMsg.plain rc.1 rc.2) ++ [ChatMsg.plain "user" prompt]),
          toolsEnabled⟩ := by
  rw [generate_log_head]
  simp [buildMessages, List.map_map, Function.comp]

end StoryForge
